import Mathlib

/-!
Verification of the agentic-ai-cyberres validation pipeline.

The repository has two layers:

* a planning + evaluation engine (the prompts driving the plan/evaluate
  agents); the repository ships this logic as prose rules, so the
  definitions below labelled `Modelled from the spec:` formalise those
  rules faithfully from the specification text;
* concrete TypeScript tool handlers (`MongoDBDataValidatorTool`,
  `PostgreSQLDataValidatorTool`, ...), embedded below directly from the
  source, with the `execSync` shell boundary represented as an explicit
  oracle and the executed command lines and interpolated identifiers
  recorded for inspection.
-/

namespace CyberRes

/-- Modelled from the spec: a validation request.  `resourceType` is kept as a
raw string so that invalid requests are representable; `port` is the optional
explicit port override; `uri` the optional connection URI. -/
structure ValidationRequest where
  resourceType : String
  host : String
  port : Option Nat
  uri : Option String
deriving DecidableEq, Repr

/-- Modelled from the spec: a single plan step, a tool identifier plus its
string arguments. -/
structure PlanStep where
  tool : String
  args : List (String × String)
deriving DecidableEq, Repr

/-- Modelled from the spec: the planner's only error kind, `InvalidRequest`. -/
inductive PlanError where
  | invalidRequest
deriving DecidableEq, Repr

/-- Modelled from the spec: default reachability port per resource type
(22 for vm, 1521 for oracle, 27017 for mongo); `none` marks an
unrecognized resource type. -/
def defaultPort (rt : String) : Option Nat :=
  if rt = "vm" then some 22
  else if rt = "oracle" then some 1521
  else if rt = "mongo" then some 27017
  else none

/-- Modelled from the spec: the resource-type-specific tail of the plan.
`vm` gets the three linux checks, `oracle` the two oracle checks, `mongo`
gets `db_mongo_connect` and then `db_mongo_rs_status` exactly when the
request supplies a connection URI. -/
def planTail (r : ValidationRequest) : List PlanStep :=
  if r.resourceType = "vm" then
    [ { tool := "vm_linux_uptime_load_mem", args := [("host", r.host)] },
      { tool := "vm_linux_fs_usage", args := [("host", r.host)] },
      { tool := "vm_linux_services", args := [("host", r.host)] } ]
  else if r.resourceType = "oracle" then
    [ { tool := "db_oracle_connect", args := [("host", r.host)] },
      { tool := "db_oracle_tablespaces", args := [("host", r.host)] } ]
  else if r.resourceType = "mongo" then
    { tool := "db_mongo_connect", args := [("host", r.host)] } ::
      (match r.uri with
        | some u => [ { tool := "db_mongo_rs_status", args := [("uri", u)] } ]
        | none => [])
  else []

/-- Modelled from the spec: the leading reachability step. -/
def tcpStep (host : String) (portNum : Nat) : PlanStep :=
  { tool := "tcp_portcheck", args := [("host", host), ("port", toString portNum)] }

/-- Modelled from the spec: `plan(request)`.  Fails with `InvalidRequest`
when `resourceType` is not one of vm/oracle/mongo (returning no steps at
all); otherwise emits the leading `tcp_portcheck` step — targeting the
request's port override when present and the resource type's default port
otherwise — followed by the resource-type-specific tail. -/
def plan (r : ValidationRequest) : Except PlanError (List PlanStep) :=
  match defaultPort r.resourceType with
  | none => Except.error PlanError.invalidRequest
  | some d => Except.ok (tcpStep r.host (r.port.getD d) :: planTail r)

/-- Modelled from the spec: a check outcome, PASS or FAIL. -/
inductive Status where
  | PASS
  | FAIL
deriving DecidableEq, Repr

/-- Modelled from the spec: a CheckResult — rule name, status, and a
human-readable message present on FAIL. -/
structure CheckResult where
  name : String
  status : Status
  message : Option String
deriving DecidableEq, Repr

/-- Modelled from the spec: one reported filesystem entry; `use_pct` is
optional so that a payload missing the field is representable. -/
structure FsEntry where
  mount : String
  use_pct : Option ℚ
deriving DecidableEq, Repr

/-- Modelled from the spec: one reported tablespace with its free and total
megabytes. -/
structure Tablespace where
  name : String
  free_mb : ℚ
  total_mb : ℚ
deriving DecidableEq, Repr

/-- Modelled from the spec: the tool-specific structured payload of a
ToolOutput.  Memory counters and `myState` are optional so that payloads
missing those fields are representable; `unit` stands for the payloads the
rules never inspect (the connect probes). -/
inductive Payload where
  | port (portNum : Nat) (success : Bool)
  | fsUsage (entries : List FsEntry)
  | mem (memTotal memFree : Option ℚ)
  | services (missing : List String)
  | tablespaces (ts : List Tablespace)
  | rsStatus (myState : Option Int)
  | unit
deriving DecidableEq, Repr

/-- Modelled from the spec: a ToolOutput — tool identifier, `ok` flag
(did the tool itself execute), and the structured payload. -/
structure ToolOutput where
  tool : String
  ok : Bool
  payload : Payload
deriving DecidableEq, Repr

/-- Modelled from the spec: the acceptance profile of named thresholds. -/
structure AcceptanceProfile where
  fs_max_pct : ℚ
  mem_min_free_pct : ℚ
  required_services : List String
  tablespace_min_free_pct : ℚ
  allowed_states : List Int
deriving DecidableEq, Repr

/-- Modelled from the spec: the verdict — ordered CheckResults, integer
score, overall pass flag. -/
structure Verdict where
  checks : List CheckResult
  score : ℤ
  overallPass : Bool
deriving DecidableEq, Repr

/-- Modelled from the spec: the per-filesystem rule.  A missing `use_pct`
fails closed with a message naming the missing field; otherwise FAIL iff
`use_pct > fs_max_pct`. -/
def fsCheck (p : AcceptanceProfile) (e : FsEntry) : CheckResult :=
  match e.use_pct with
  | none => { name := "fs:" ++ e.mount, status := Status.FAIL, message := some "use_pct missing" }
  | some u =>
    if p.fs_max_pct < u then
      { name := "fs:" ++ e.mount, status := Status.FAIL,
        message := some ("use_pct " ++ toString u ++ " above " ++ toString p.fs_max_pct) }
    else { name := "fs:" ++ e.mount, status := Status.PASS, message := none }

/-- Modelled from the spec: the memory rule.  Missing counters fail closed;
otherwise compute `free_pct = free/total*100` and FAIL iff it is below
`mem_min_free_pct`. -/
def memCheck (p : AcceptanceProfile) (memTotal memFree : Option ℚ) : CheckResult :=
  match memTotal, memFree with
  | some t, some f =>
    if f / t * 100 < p.mem_min_free_pct then
      { name := "mem:free_pct", status := Status.FAIL,
        message := some "free memory below threshold" }
    else { name := "mem:free_pct", status := Status.PASS, message := none }
  | _, _ =>
    { name := "mem:free_pct", status := Status.FAIL,
      message := some "memory counters missing" }

/-- Modelled from the spec: the per-required-service rule: FAIL iff the
service is reported missing. -/
def serviceCheck (missing : List String) (s : String) : CheckResult :=
  if s ∈ missing then
    { name := "service:" ++ s, status := Status.FAIL, message := some "service missing" }
  else { name := "service:" ++ s, status := Status.PASS, message := none }

/-- Modelled from the spec: the per-tablespace rule: FAIL iff
`free_mb / total_mb < tablespace_min_free_pct` (the threshold is a
fraction in [0,1], compared against the ratio, not a percentage). -/
def tsCheck (p : AcceptanceProfile) (t : Tablespace) : CheckResult :=
  if t.free_mb / t.total_mb < p.tablespace_min_free_pct then
    { name := "tablespace:" ++ t.name, status := Status.FAIL,
      message := some ("free ratio below " ++ toString p.tablespace_min_free_pct) }
  else { name := "tablespace:" ++ t.name, status := Status.PASS, message := none }

/-- Modelled from the spec: the replica-set rule: a missing `myState` fails
closed; otherwise FAIL iff `myState` is not in `allowed_states`. -/
def rsCheck (p : AcceptanceProfile) (myState : Option Int) : CheckResult :=
  match myState with
  | none => { name := "mongo:rs_status", status := Status.FAIL, message := some "myState missing" }
  | some s =>
    if s ∈ p.allowed_states then
      { name := "mongo:rs_status", status := Status.PASS, message := none }
    else
      { name := "mongo:rs_status", status := Status.FAIL, message := some "state not allowed" }

/-- Modelled from the spec: the rule set applied to a single ToolOutput.
A ToolOutput with `ok = false` yields the single FAIL CheckResult named
after the tool and nothing else; otherwise the tool's rule runs over the
payload.  Outputs for tools outside the closed enumeration (or with a
payload of the wrong shape) contribute no checks. -/
def evalTool (p : AcceptanceProfile) (o : ToolOutput) : List CheckResult :=
  if o.ok = false then
    [{ name := o.tool, status := Status.FAIL, message := some "tool execution failed" }]
  else if o.tool = "tcp_portcheck" then
    match o.payload with
    | Payload.port portNum success =>
      if success then
        [{ name := "port:" ++ toString portNum, status := Status.PASS, message := none }]
      else
        [{ name := "port:" ++ toString portNum, status := Status.FAIL,
           message := some "port not reachable" }]
    | _ => []
  else if o.tool = "vm_linux_fs_usage" then
    match o.payload with
    | Payload.fsUsage entries => entries.map (fsCheck p)
    | _ => []
  else if o.tool = "vm_linux_uptime_load_mem" then
    match o.payload with
    | Payload.mem t f => [memCheck p t f]
    | _ => []
  else if o.tool = "vm_linux_services" then
    match o.payload with
    | Payload.services missing => p.required_services.map (serviceCheck missing)
    | _ => []
  else if o.tool = "db_oracle_connect" then
    [{ name := "oracle:connect", status := Status.PASS, message := none }]
  else if o.tool = "db_oracle_tablespaces" then
    match o.payload with
    | Payload.tablespaces ts => ts.map (tsCheck p)
    | _ => []
  else if o.tool = "db_mongo_connect" then
    [{ name := "mongo:connect", status := Status.PASS, message := none }]
  else if o.tool = "db_mongo_rs_status" then
    match o.payload with
    | Payload.rsStatus st => [rsCheck p st]
    | _ => []
  else []

/-- Modelled from the spec: the number of PASS checks. -/
def passedCount (cs : List CheckResult) : Nat :=
  cs.countP (fun c => decide (c.status = Status.PASS))

/-- Modelled from the spec: `evaluate(toolOutputs, acceptanceProfile)`.
Checks are the concatenation, in input order, of each tool's rule results;
score is `round(100 * passed / total)` (100 when there are no checks);
`overallPass` holds iff every check passed. -/
def evaluate (outputs : List ToolOutput) (p : AcceptanceProfile) : Verdict :=
  let checks := outputs.flatMap (evalTool p)
  { checks := checks
    score :=
      if checks.length = 0 then 100
      else round ((100 * (passedCount checks : ℚ)) / (checks.length : ℚ))
    overallPass := checks.all (fun c => decide (c.status = Status.PASS)) }

/-! ### TypeScript validator tools (embedded from the source)

The handlers below embed the `DynamicTool` handlers of the data-validation
tools file.  `execSync` is an explicit oracle from the command line to its
outcome (stdout on success, or the thrown error's `message` and optional
`stderr`).  Each embedded handler additionally records, in order, the
command lines it passed to `execSync` and every identifier it interpolated
into a command line, tagged with where the identifier came from. -/

/-- Outcome of one `execSync` call: either the stdout string, or the thrown
error's `message` together with its optional `stderr`. -/
inductive ExecOutcome where
  | success (stdout : String)
  | failure (message : String) (stderr : Option String)
deriving DecidableEq, Repr

/-- JavaScript string concatenation with `error.stderr`: an absent field
prints as `undefined`. -/
def errStr : Option String → String
  | none => "undefined"
  | some s => s

/-- Splits a character list at every occurrence of `sep`, keeping empty
segments — the semantics of JavaScript `String.prototype.split`. -/
def splitCharList (sep : Char) : List Char → List (List Char)
  | [] => [[]]
  | c :: cs =>
    let r := splitCharList sep cs
    if c = sep then [] :: r
    else
      match r with
      | [] => [[c]]
      | h :: t => (c :: h) :: t

/-- JavaScript `s.split('\n')`. -/
def splitOnNl (s : String) : List String :=
  (splitCharList (Char.ofNat 10) s.data).map (fun l => String.mk l)

/-- JavaScript `s.trim()`: strip whitespace from both ends. -/
def jsTrim (s : String) : String :=
  String.mk (((s.data.dropWhile Char.isWhitespace).reverse.dropWhile Char.isWhitespace).reverse)

/-- Where an identifier interpolated into a psql command line came from:
the `POSTGRES_DB_NAME` env variable, the `POSTGRES_TABLE_NAME` env
variable, or a table name read back from the `pg_tables` listing in
validate-all-tables mode. -/
inductive IdentSource where
  | dbName
  | tableEnv
  | tableLoop
deriving DecidableEq, Repr

/-- Result of an embedded handler run: the `StringToolOutput` string, the
`execSync` command lines in order, and the interpolated identifiers. -/
structure HandlerResult where
  output : String
  commands : List String
  idents : List (IdentSource × String)
deriving DecidableEq, Repr

/-- The fixed command the MongoDB validator passes to `execSync`. -/
def mongoshCmd : String := "mongosh --file src/helpers/mongoDBDataValidator.js"

/-- Embeds the `MongoDBDataValidatorTool` handler: refuse any argument
other than `mongod` without running anything; otherwise run `mongosh` on
the validation script and return its stdout, or the failure text built
from the error's stderr. -/
def mongoHandler (exec : String → ExecOutcome) (argument : String) : HandlerResult :=
  if argument ≠ "mongod" then
    { output := "Validation Failed. Reason: " ++ argument ++ " cannot be used to validate mongod",
      commands := [], idents := [] }
  else
    match exec mongoshCmd with
    | ExecOutcome.success out => { output := out, commands := [mongoshCmd], idents := [] }
    | ExecOutcome.failure _ st =>
      { output := "Validation Failed.  Details:\n" ++ errStr st,
        commands := [mongoshCmd], idents := [] }

/-- The character class of the validation regex `^[a-zA-Z0-9_$]+$`. -/
def inPgClass (c : Char) : Bool := c.isAlphanum || c == '_' || c == '$'

/-- The identifier validation the handler applies to env-supplied names:
`!name || !/^[a-zA-Z0-9_$]+$/.test(name)` rejects, so a name is accepted
iff it is non-empty and every character is in the class. -/
def pgIdentOk (s : String) : Bool := !(s = "") && s.data.all inPgClass

/-- The table-listing command of validate-all-tables mode
(`psql -d ${pgDbName} -t -c "SELECT tablename FROM pg_tables ..."`). -/
def pgListCmd (db : String) : String :=
  "psql -d " ++ db ++
    " -t -c \"SELECT tablename FROM pg_tables WHERE schemaname = \x27public\x27 ORDER BY tablename;\""

/-- The per-table validation command
(`psql -d ${db} -v dbname=${db} -v tablename=${t} --file src/helpers/postgresDataValidator.sql`). -/
def pgTableCmd (db t : String) : String :=
  "psql -d " ++ db ++ " -v dbname=" ++ db ++ " -v tablename=" ++ t ++
    " --file src/helpers/postgresDataValidator.sql"

/-- The identifiers interpolated into `pgTableCmd db t`: the database name
twice, then the table name (tagged with its source). -/
def pgTableCmdIdents (src : IdentSource) (db t : String) : List (IdentSource × String) :=
  [(IdentSource.dbName, db), (IdentSource.dbName, db), (src, t)]

/-- The `returnString` of the validation-error catch path: the thrown
`Error` has no `stderr` field, so the JS concatenation appends
`undefined`. -/
def pgInvalidNameResult : HandlerResult :=
  { output := "Validation Failed.  Details:\n" ++ errStr none, commands := [], idents := [] }

/-- The running totals of the per-table loop
(`validationSummary` in the source). -/
structure PgSummary where
  total : Nat
  valid : Nat
  invalid : Nat
  errors : List String
deriving DecidableEq, Repr

/-- Accumulator of the per-table loop: the summary, the accumulated
`allResults` strings, and the instrumentation lists. -/
structure PgLoopState where
  summary : PgSummary
  results : List String
  commands : List String
  idents : List (IdentSource × String)
deriving DecidableEq, Repr

/-- One iteration of the per-table loop.  On `execSync` success the last
non-empty line of the output is JSON-parsed — `parse` abstracts
`JSON.parse` plus the `.valid`/`.errors` reads: `none` models a parse
error (counted valid), `some (v, e)` models a parsed object with truthy
`valid` flag `v` and error text `e`.  On failure the table is counted
invalid with the error's message; either way the loop continues. -/
def pgTableStep (exec : String → ExecOutcome) (parse : String → Option (Bool × String))
    (db : String) (st : PgLoopState) (t : String) : PgLoopState :=
  let cmd := pgTableCmd db t
  match exec cmd with
  | ExecOutcome.success tableResult =>
    let lines := (splitOnNl tableResult).filter (fun l => 0 < (jsTrim l).length)
    let parsed : Option (Bool × String) :=
      match lines.getLast? with
      | none => none
      | some jsonLine => parse jsonLine
    let summary :=
      match parsed with
      | none => { st.summary with valid := st.summary.valid + 1 }
      | some (true, _) => { st.summary with valid := st.summary.valid + 1 }
      | some (false, e) =>
        { st.summary with
          invalid := st.summary.invalid + 1
          errors := st.summary.errors ++ [t ++ ": " ++ e] }
    { summary := summary
      results := st.results ++ ["\n=== Table: " ++ t ++ " ===\n" ++ tableResult]
      commands := st.commands ++ [cmd]
      idents := st.idents ++ pgTableCmdIdents IdentSource.tableLoop db t }
  | ExecOutcome.failure msg _ =>
    { summary :=
        { st.summary with
            invalid := st.summary.invalid + 1
            errors := st.summary.errors ++ [t ++ ": " ++ msg] }
      results := st.results ++ ["\n=== Table: " ++ t ++ " ===\nValidation Failed: " ++ msg]
      commands := st.commands ++ [cmd]
      idents := st.idents ++ pgTableCmdIdents IdentSource.tableLoop db t }

/-- The summary report string built after the per-table loop. -/
def pgSummaryText (db : String) (s : PgSummary) : String :=
  let sep := String.mk (List.replicate 60 '=')
  "PostgreSQL Database Validation Summary for: " ++ db ++ "\n" ++
    sep ++ "\n" ++
    "Total tables: " ++ toString s.total ++ "\n" ++
    "Valid tables: " ++ toString s.valid ++ "\n" ++
    "Invalid tables: " ++ toString s.invalid ++ "\n" ++
    (if s.errors.length = 0 then "" else "\nErrors:\n" ++ String.intercalate "\n" s.errors ++ "\n") ++
    sep ++ "\n" ++
    "\nNote: Detailed validation output omitted for brevity.\n" ++
    "All tables validated successfully with indexes and constraints checked.\n"

/-- Validate-all-tables mode: list the tables of `db`, split the listing
into trimmed non-empty lines, validate each in turn, and return the
summary report.  A failure of the listing command itself is caught by the
outer catch. -/
def pgAllTables (exec : String → ExecOutcome) (parse : String → Option (Bool × String))
    (db : String) : HandlerResult :=
  let cmd0 := pgListCmd db
  match exec cmd0 with
  | ExecOutcome.failure _ st =>
    { output := "Validation Failed.  Details:\n" ++ errStr st,
      commands := [cmd0], idents := [(IdentSource.dbName, db)] }
  | ExecOutcome.success tablesOutput =>
    let tables := ((splitOnNl tablesOutput).map jsTrim).filter (fun t => 0 < t.length)
    let init : PgLoopState :=
      { summary := { total := tables.length, valid := 0, invalid := 0, errors := [] }
        results := []
        commands := [cmd0]
        idents := [(IdentSource.dbName, db)] }
    let fin := tables.foldl (pgTableStep exec parse db) init
    { output := pgSummaryText db fin.summary, commands := fin.commands, idents := fin.idents }

/-- Single-table mode: read `POSTGRES_TABLE_NAME`, reject it unless it
matches the identifier regex, then run the per-table validation command
once and return its stdout (or the failure text from the error's
stderr). -/
def pgSingleTable (env : String → Option String) (exec : String → ExecOutcome)
    (db : String) : HandlerResult :=
  let tableName? := env "POSTGRES_TABLE_NAME"
  match tableName? with
  | none => pgInvalidNameResult
  | some t =>
    if !pgIdentOk t then pgInvalidNameResult
    else
      let cmd := pgTableCmd db t
      match exec cmd with
      | ExecOutcome.success out =>
        { output := out, commands := [cmd], idents := pgTableCmdIdents IdentSource.tableEnv db t }
      | ExecOutcome.failure _ st =>
        { output := "Validation Failed.  Details:\n" ++ errStr st,
          commands := [cmd], idents := pgTableCmdIdents IdentSource.tableEnv db t }

/-- Embeds the `PostgreSQLDataValidatorTool` handler: refuse any argument
other than `postgres` without running anything; otherwise validate
`POSTGRES_DB_NAME` against the identifier regex (rejecting into the catch
path with no command executed), then run either validate-all-tables mode
or single-table mode according to `POSTGRES_VALIDATE_ALL_TABLES`. -/
def postgresHandler (env : String → Option String) (exec : String → ExecOutcome)
    (parse : String → Option (Bool × String)) (argument : String) : HandlerResult :=
  if argument ≠ "postgres" then
    { output := "Validation Failed. Reason: " ++ argument ++ " cannot be used to validate postgres",
      commands := [], idents := [] }
  else
    let dbName? := env "POSTGRES_DB_NAME"
    let validateAllTables := env "POSTGRES_VALIDATE_ALL_TABLES" = some "true"
    match dbName? with
    | none => pgInvalidNameResult
    | some db =>
      if !pgIdentOk db then pgInvalidNameResult
      else if validateAllTables then pgAllTables exec parse db
      else pgSingleTable env exec db

/-! ### Theorems -/

/-- C2: for every valid ValidationRequest (resourceType among vm, oracle,
mongo), the plan is non-empty and its first step is `tcp_portcheck`
targeting the default port of the resource type (22 / 1521 / 27017), or the
request's explicit port override when one is supplied. -/
theorem planner_first_step_portcheck (r : ValidationRequest)
    (h : r.resourceType = "vm" ∨ r.resourceType = "oracle" ∨ r.resourceType = "mongo") :
    ∃ steps, plan r = Except.ok steps ∧ steps ≠ [] ∧
      steps.head? = some
        { tool := "tcp_portcheck",
          args := [("host", r.host),
            ("port", toString (r.port.getD
              (if r.resourceType = "vm" then 22
               else if r.resourceType = "oracle" then 1521
               else 27017)))] } := by
  rcases h with h | h | h
  · exact ⟨tcpStep r.host (r.port.getD 22) :: planTail r,
      by simp [plan, defaultPort, h], by simp, by simp [tcpStep, h]⟩
  · exact ⟨tcpStep r.host (r.port.getD 1521) :: planTail r,
      by simp [plan, defaultPort, h], by simp, by simp [tcpStep, h]⟩
  · exact ⟨tcpStep r.host (r.port.getD 27017) :: planTail r,
      by simp [plan, defaultPort, h], by simp, by simp [tcpStep, h]⟩

/-- C2 witness: a bare vm request plans `tcp_portcheck` on port 22 first. -/
theorem planner_first_step_portcheck_witness :
    ∃ steps,
      plan { resourceType := "vm", host := "h", port := none, uri := none } = Except.ok steps ∧
      steps ≠ [] ∧
      steps.head? = some { tool := "tcp_portcheck", args := [("host", "h"), ("port", "22")] } := by
  have h := planner_first_step_portcheck
    { resourceType := "vm", host := "h", port := none, uri := none } (Or.inl rfl)
  simpa using h

/-- C3: after the leading `tcp_portcheck`, the plan's steps are exactly, in
order: the three linux checks for vm; connect then tablespaces for oracle;
and for mongo, connect followed by `db_mongo_rs_status` iff the request
supplies a URI (planning still succeeds without a URI). -/
theorem planner_tail_steps (r : ValidationRequest)
    (h : r.resourceType = "vm" ∨ r.resourceType = "oracle" ∨ r.resourceType = "mongo") :
    ∃ steps, plan r = Except.ok steps ∧
      steps.map PlanStep.tool =
        "tcp_portcheck" ::
          (if r.resourceType = "vm" then
            ["vm_linux_uptime_load_mem", "vm_linux_fs_usage", "vm_linux_services"]
          else if r.resourceType = "oracle" then
            ["db_oracle_connect", "db_oracle_tablespaces"]
          else
            "db_mongo_connect" :: (if r.uri.isSome then ["db_mongo_rs_status"] else [])) := by
  rcases h with h | h | h
  · refine ⟨tcpStep r.host (r.port.getD 22) :: planTail r,
      by simp [plan, defaultPort, h], ?_⟩
    simp [planTail, tcpStep, h]
  · refine ⟨tcpStep r.host (r.port.getD 1521) :: planTail r,
      by simp [plan, defaultPort, h], ?_⟩
    simp [planTail, tcpStep, h]
  · refine ⟨tcpStep r.host (r.port.getD 27017) :: planTail r,
      by simp [plan, defaultPort, h], ?_⟩
    rcases hu : r.uri with _ | u <;> simp [planTail, tcpStep, h, hu]

/-- C3 witness: a mongo request with a URI plans connect then rs_status
after the port check. -/
theorem planner_tail_steps_witness :
    ∃ steps,
      plan { resourceType := "mongo", host := "h", port := none, uri := some "mongodb://h" } =
        Except.ok steps ∧
      steps.map PlanStep.tool = ["tcp_portcheck", "db_mongo_connect", "db_mongo_rs_status"] := by
  have h := planner_tail_steps
    { resourceType := "mongo", host := "h", port := none, uri := some "mongodb://h" }
    (Or.inr (Or.inr rfl))
  simpa using h

/-- C4: a request whose resourceType is empty or outside vm/oracle/mongo
makes `plan` fail with `InvalidRequest`, returning no steps at all. -/
theorem planner_invalid_request (r : ValidationRequest)
    (h : r.resourceType ≠ "vm" ∧ r.resourceType ≠ "oracle" ∧ r.resourceType ≠ "mongo") :
    plan r = Except.error PlanError.invalidRequest := by
  simp [plan, defaultPort, h.1, h.2.1, h.2.2]

/-- C4 witness: an empty resourceType is rejected. -/
theorem planner_invalid_request_witness :
    plan { resourceType := "", host := "h", port := none, uri := none } =
      Except.error PlanError.invalidRequest :=
  planner_invalid_request { resourceType := "", host := "h", port := none, uri := none }
    ⟨by decide, by decide, by decide⟩

/-- C5: the planner is deterministic — identical requests yield identical
plans; in this embedding `plan` is a pure function of the immutable request
value, with no other inputs to depend on. -/
theorem planner_deterministic (r₁ r₂ : ValidationRequest) (h : r₁ = r₂) :
    plan r₁ = plan r₂ := by
  rw [h]

/-- C5 witness: determinism at a concrete request. -/
theorem planner_deterministic_witness :
    plan { resourceType := "oracle", host := "db1", port := some 1522, uri := none } =
      plan { resourceType := "oracle", host := "db1", port := some 1522, uri := none } :=
  planner_deterministic _ _ rfl

/-- A profile used by concrete witnesses. -/
def sampleProfile : AcceptanceProfile :=
  { fs_max_pct := 90
    mem_min_free_pct := 10
    required_services := []
    tablespace_min_free_pct := 1 / 10
    allowed_states := [1, 2] }

/-- C1: the verdict's score is the integer `round(100 * passed / total)`
over the checks, with score 100 and overall pass when there are no checks,
and `overallPass` holds iff every CheckResult has status PASS. -/
theorem evaluator_score_and_overall (outputs : List ToolOutput) (p : AcceptanceProfile) :
    ((evaluate outputs p).checks.length = 0 →
      (evaluate outputs p).score = 100 ∧ (evaluate outputs p).overallPass = true) ∧
    ((evaluate outputs p).checks.length ≠ 0 →
      (evaluate outputs p).score =
        round ((100 * (passedCount (evaluate outputs p).checks : ℚ)) /
          ((evaluate outputs p).checks.length : ℚ))) ∧
    ((evaluate outputs p).overallPass = true ↔
      ∀ c ∈ (evaluate outputs p).checks, c.status = Status.PASS) := by
  rcases hcs : outputs.flatMap (evalTool p) with _ | ⟨c, rest⟩
  · refine ⟨fun _ => ?_, fun h => ?_, ?_⟩
    · simp [evaluate, hcs]
    · exact absurd (by simp [evaluate, hcs]) h
    · simp [evaluate, hcs]
  · refine ⟨fun h => ?_, fun _ => ?_, ?_⟩
    · rw [show (evaluate outputs p).checks = c :: rest by simp [evaluate, hcs]] at h
      simp at h
    · simp [evaluate, hcs]
    · simp [evaluate, hcs, List.all_eq_true]

/-- C1 witness: an empty evaluation has score 100 and passes overall. -/
theorem evaluator_score_and_overall_witness :
    (evaluate [] sampleProfile).score = 100 ∧ (evaluate [] sampleProfile).overallPass = true := by
  have h := evaluator_score_and_overall [] sampleProfile
  exact h.1 rfl

/-- C6: a ToolOutput with `ok = false` contributes exactly one FAIL
CheckResult named after the tool, whatever its payload, and the rest of the
evaluation (the other tools' outputs) is unaffected. -/
theorem evaluator_failed_tool_single_fail (p : AcceptanceProfile)
    (pre post : List ToolOutput) (o : ToolOutput) (h : o.ok = false) :
    (evaluate (pre ++ o :: post) p).checks =
      pre.flatMap (evalTool p) ++
        ({ name := o.tool, status := Status.FAIL, message := some "tool execution failed" } :
          CheckResult) :: post.flatMap (evalTool p) := by
  simp [evaluate, List.flatMap_append, evalTool, h]

/-- C6 witness: a failed mongo connect probe with a payload that would
otherwise produce a check yields only the single tool-level FAIL. -/
theorem evaluator_failed_tool_single_fail_witness :
    (evaluate [{ tool := "db_mongo_connect", ok := false, payload := Payload.unit }]
        sampleProfile).checks =
      [{ name := "db_mongo_connect", status := Status.FAIL,
         message := some "tool execution failed" }] := by
  have h := evaluator_failed_tool_single_fail sampleProfile [] []
    { tool := "db_mongo_connect", ok := false, payload := Payload.unit } rfl
  simpa using h

/-- C7: evaluation is total, and a filesystem entry whose `use_pct` field is
absent fails closed with a message naming the missing field, while every
other entry and every other tool's output is still evaluated (the
fs_usage output contributes exactly one CheckResult per entry and the
surrounding outputs contribute their own checks unchanged). -/
theorem evaluator_missing_field_fails_closed (p : AcceptanceProfile)
    (pre post : List ToolOutput) (entries : List FsEntry) :
    (evaluate
        (pre ++ { tool := "vm_linux_fs_usage", ok := true, payload := Payload.fsUsage entries } ::
          post) p).checks =
      pre.flatMap (evalTool p) ++ entries.map (fsCheck p) ++ post.flatMap (evalTool p) ∧
    ∀ e : FsEntry, e.use_pct = none →
      fsCheck p e =
        { name := "fs:" ++ e.mount, status := Status.FAIL, message := some "use_pct missing" } := by
  constructor
  · simp [evaluate, List.flatMap_append, evalTool]
  · intro e he
    simp [fsCheck, he]

/-- C7 witness: with one entry missing `use_pct` and one over-threshold
entry, both checks are emitted, the first failing with the missing-field
message. -/
theorem evaluator_missing_field_fails_closed_witness :
    (evaluate
        [{ tool := "vm_linux_fs_usage", ok := true,
           payload := Payload.fsUsage
            [{ mount := "/var", use_pct := none }, { mount := "/", use_pct := some 95 }] }]
        sampleProfile).checks =
      [{ name := "fs:/var", status := Status.FAIL, message := some "use_pct missing" },
       fsCheck sampleProfile { mount := "/", use_pct := some 95 }] := by
  have h := evaluator_missing_field_fails_closed sampleProfile [] []
    [{ mount := "/var", use_pct := none }, { mount := "/", use_pct := some 95 }]
  have h2 := h.2 { mount := "/var", use_pct := none } rfl
  simpa [h2] using h.1

/-- C8: a successful `db_oracle_tablespaces` output yields exactly one
CheckResult per tablespace, named `tablespace:<name>`, failing iff
`free_mb / total_mb < tablespace_min_free_pct` with the threshold read as a
fraction; in particular the spec's Scenario C (free 50 of 1000 against
threshold 0.1) fails. -/
theorem evaluator_tablespace_rule (p : AcceptanceProfile) (ts : List Tablespace) :
    evalTool p { tool := "db_oracle_tablespaces", ok := true, payload := Payload.tablespaces ts } =
      ts.map (tsCheck p) ∧
    (∀ t : Tablespace,
      (tsCheck p t).name = "tablespace:" ++ t.name ∧
      ((tsCheck p t).status = Status.FAIL ↔
        t.free_mb / t.total_mb < p.tablespace_min_free_pct)) ∧
    (tsCheck sampleProfile { name := "USERS", free_mb := 50, total_mb := 1000 }).status =
      Status.FAIL := by
  refine ⟨by simp [evalTool], fun t => ⟨?_, ?_⟩, by norm_num [tsCheck, sampleProfile]⟩
  · unfold tsCheck
    split <;> rfl
  · unfold tsCheck
    split <;> simp_all

/-- The identifiers recorded for one per-table command: the database name
(twice) and the table name; the non-`tableLoop` ones are regex-valid as
soon as the database name is and, for an env-supplied table name, the
table name is. -/
theorem pgTableCmdIdents_sources (src : IdentSource) (db t : String)
    (hdb : pgIdentOk db = true)
    (hts : src ≠ IdentSource.tableLoop → pgIdentOk t = true) :
    ∀ pr ∈ pgTableCmdIdents src db t, pr.1 ≠ IdentSource.tableLoop → pgIdentOk pr.2 = true := by
  intro pr hpr hne
  fin_cases hpr
  · exact hdb
  · exact hdb
  · exact hts hne

/-- Invariant of the validate-all-tables loop: it only ever adds
identifiers tagged `dbName` (the already-validated database name) and
`tableLoop` (table names read back from psql, interpolated unchecked), so
every non-`tableLoop` identifier accumulated so far stays
regex-validated. -/
theorem pgLoop_idents_invariant (exec : String → ExecOutcome)
    (parse : String → Option (Bool × String)) (db : String) (hdb : pgIdentOk db = true)
    (tables : List String) (st : PgLoopState)
    (h : ∀ pr ∈ st.idents, pr.1 ≠ IdentSource.tableLoop → pgIdentOk pr.2 = true) :
    ∀ pr ∈ (List.foldl (pgTableStep exec parse db) st tables).idents,
      pr.1 ≠ IdentSource.tableLoop → pgIdentOk pr.2 = true := by
  induction tables generalizing st with
  | nil => simpa using h
  | cons t rest ih =>
    rw [List.foldl_cons]
    refine ih _ ?_
    intro pr hpr hne
    have hstep : (pgTableStep exec parse db st t).idents =
        st.idents ++ pgTableCmdIdents IdentSource.tableLoop db t := by
      unfold pgTableStep
      dsimp only
      split <;> rfl
    rw [hstep] at hpr
    rcases List.mem_append.mp hpr with h1 | h2
    · exact h pr h1 hne
    · exact pgTableCmdIdents_sources _ db t hdb (fun hc => absurd rfl hc) pr h2 hne

/-- Environment and `execSync` oracle exhibiting the unchecked loop
identifier: validate-all-tables mode on database `mydb`, with the
table-listing query returning a table name that fails the identifier
regex. -/
def pgEnvAll : String → Option String := fun k =>
  if k = "POSTGRES_DB_NAME" then some "mydb"
  else if k = "POSTGRES_VALIDATE_ALL_TABLES" then some "true"
  else none

/-- `execSync` oracle for the counterexample: the listing query reports a
single table named `bad;name`; every other command succeeds. -/
def pgExecBadTable : String → ExecOutcome := fun c =>
  if c = pgListCmd "mydb" then ExecOutcome.success "bad;name\n" else ExecOutcome.success "done"

/-- JSON-parse oracle for the counterexample: parsing always fails (the
handler then counts the table as valid). -/
def pgParseAbs : String → Option (Bool × String) := fun _ => none

/-- C9 counterexample: in validate-all-tables mode the handler interpolates
a table name read back from psql into the per-table command line without
the `^[a-zA-Z0-9_$]+$` check — here `bad;name`, which fails the regex, ends
up inside an executed command. -/
theorem postgres_loop_ident_unvalidated :
    (postgresHandler pgEnvAll pgExecBadTable pgParseAbs "postgres").commands =
      [pgListCmd "mydb", pgTableCmd "mydb" "bad;name"] ∧
    (IdentSource.tableLoop, "bad;name") ∈
      (postgresHandler pgEnvAll pgExecBadTable pgParseAbs "postgres").idents ∧
    pgIdentOk "bad;name" = false :=
  ⟨by decide, by decide, by decide⟩

/-- C9 (amended): when `POSTGRES_DB_NAME` (or, in single-table mode,
`POSTGRES_TABLE_NAME`) is unset or fails the `^[a-zA-Z0-9_$]+$` check, the
handler runs no command and returns a string beginning with
"Validation Failed."; and every identifier the handler interpolates into a
command line other than the loop-read table names of validate-all-tables
mode matches the regex (the loop-read names are interpolated
unvalidated). -/
theorem postgres_handler_ident_safety (env : String → Option String)
    (exec : String → ExecOutcome) (parse : String → Option (Bool × String))
    (argument : String) :
    ((env "POSTGRES_DB_NAME" = none ∨
        (∃ s, env "POSTGRES_DB_NAME" = some s ∧ pgIdentOk s = false) ∨
        (env "POSTGRES_VALIDATE_ALL_TABLES" ≠ some "true" ∧
          (env "POSTGRES_TABLE_NAME" = none ∨
            ∃ s, env "POSTGRES_TABLE_NAME" = some s ∧ pgIdentOk s = false))) →
      (postgresHandler env exec parse argument).commands = [] ∧
      ∃ rest, (postgresHandler env exec parse argument).output = "Validation Failed." ++ rest) ∧
    (∀ pr ∈ (postgresHandler env exec parse argument).idents,
      pr.1 ≠ IdentSource.tableLoop → pgIdentOk pr.2 = true) := by
  by_cases ha : argument = "postgres"
  · subst ha
    constructor
    · intro hinv
      have hred : postgresHandler env exec parse "postgres" = pgInvalidNameResult := by
        rcases hinv with h1 | ⟨s, hs, hbad⟩ | ⟨hvat, htab⟩
        · simp [postgresHandler, h1]
        · simp [postgresHandler, hs, hbad]
        · rcases hdbv : env "POSTGRES_DB_NAME" with _ | db
          · simp [postgresHandler, hdbv]
          · by_cases hdb : pgIdentOk db
            · rcases htab with ht1 | ⟨s, hs, hbad⟩
              · simp [postgresHandler, hdbv, hdb, hvat, pgSingleTable, ht1]
              · simp [postgresHandler, hdbv, hdb, hvat, pgSingleTable, hs, hbad]
            · simp [postgresHandler, hdbv, hdb]
      rw [hred]
      exact ⟨rfl, "  Details:\nundefined", by decide⟩
    · rcases hdbv : env "POSTGRES_DB_NAME" with _ | db
      · simp [postgresHandler, hdbv, pgInvalidNameResult]
      · by_cases hdb : pgIdentOk db
        · by_cases hvat : env "POSTGRES_VALIDATE_ALL_TABLES" = some "true"
          · have hred : postgresHandler env exec parse "postgres" = pgAllTables exec parse db := by
              simp [postgresHandler, hdbv, hdb, hvat]
            rw [hred]
            unfold pgAllTables
            dsimp only
            rcases hex : exec (pgListCmd db) with o | ⟨m, s⟩
            · apply pgLoop_idents_invariant exec parse db hdb
              intro pr hpr hne
              simp at hpr
              subst hpr
              exact hdb
            · intro pr hpr hne
              simp at hpr
              subst hpr
              exact hdb
          · have hred : postgresHandler env exec parse "postgres" = pgSingleTable env exec db := by
              simp [postgresHandler, hdbv, hdb, hvat]
            rw [hred]
            unfold pgSingleTable
            dsimp only
            rcases htv : env "POSTGRES_TABLE_NAME" with _ | t
            · simp [pgInvalidNameResult]
            · by_cases ht : pgIdentOk t
              · intro pr hpr hne
                rcases hex : exec (pgTableCmd db t) with o | ⟨m, s⟩ <;>
                  simp only [ht, Bool.not_true, Bool.false_eq_true, if_false, hex] at hpr <;>
                  exact pgTableCmdIdents_sources _ db t hdb (fun _ => ht) pr hpr hne
              · intro pr hpr hne
                simp [ht, pgInvalidNameResult] at hpr
        · simp [postgresHandler, hdbv, hdb, pgInvalidNameResult]
  · constructor
    · intro _
      refine ⟨by simp [postgresHandler, ha], " Reason: " ++ (argument ++ " cannot be used to validate postgres"), ?_⟩
      have hout : (postgresHandler env exec parse argument).output =
          "Validation Failed. Reason: " ++ argument ++ " cannot be used to validate postgres" := by
        simp [postgresHandler, ha]
      rw [hout, show ("Validation Failed. Reason: " : String) = "Validation Failed." ++ " Reason: " from rfl,
        String.append_assoc, String.append_assoc]
    · simp [postgresHandler, ha]

/-- C9 witness for the amended claim: with `POSTGRES_DB_NAME` unset the
handler executes nothing and reports a string beginning with
"Validation Failed.". -/
theorem postgres_handler_ident_safety_witness :
    (postgresHandler (fun _ => none) (fun _ => ExecOutcome.success "") (fun _ => none)
        "postgres").commands = [] ∧
    ∃ rest, (postgresHandler (fun _ => none) (fun _ => ExecOutcome.success "") (fun _ => none)
        "postgres").output = "Validation Failed." ++ rest :=
  (postgres_handler_ident_safety (fun _ => none) (fun _ => ExecOutcome.success "")
    (fun _ => none) "postgres").1 (Or.inl rfl)

/-- C10: each validator tool refuses any argument other than its designated
workload with a "Validation Failed. Reason: ..." string and executes no
external command; the MongoDB tool runs `mongosh` exactly when the argument
is `mongod`. -/
theorem validator_tools_gate_on_workload (argM argP : String)
    (env : String → Option String) (execM execP : String → ExecOutcome)
    (parse : String → Option (Bool × String))
    (hm : argM ≠ "mongod") (hp : argP ≠ "postgres") :
    (mongoHandler execM argM).commands = [] ∧
    (mongoHandler execM argM).output =
      "Validation Failed. Reason: " ++ argM ++ " cannot be used to validate mongod" ∧
    (postgresHandler env execP parse argP).commands = [] ∧
    (postgresHandler env execP parse argP).output =
      "Validation Failed. Reason: " ++ argP ++ " cannot be used to validate postgres" ∧
    (mongoHandler execM "mongod").commands = [mongoshCmd] := by
  refine ⟨by simp [mongoHandler, hm], by simp [mongoHandler, hm],
    by simp [postgresHandler, hp], by simp [postgresHandler, hp], ?_⟩
  rcases hex : execM mongoshCmd with o | ⟨m, s⟩ <;> simp [mongoHandler, hex]

/-- C10 witness: the argument `oracle` is refused by both tools with no
command executed, while `mongod` does trigger the mongosh invocation. -/
theorem validator_tools_gate_on_workload_witness :
    (mongoHandler (fun _ => ExecOutcome.success "") "oracle").commands = [] ∧
    (mongoHandler (fun _ => ExecOutcome.success "") "oracle").output =
      "Validation Failed. Reason: " ++ "oracle" ++ " cannot be used to validate mongod" ∧
    (postgresHandler (fun _ => none) (fun _ => ExecOutcome.success "") (fun _ => none)
        "oracle").commands = [] ∧
    (postgresHandler (fun _ => none) (fun _ => ExecOutcome.success "") (fun _ => none)
        "oracle").output =
      "Validation Failed. Reason: " ++ "oracle" ++ " cannot be used to validate postgres" ∧
    (mongoHandler (fun _ => ExecOutcome.success "") "mongod").commands = [mongoshCmd] :=
  validator_tools_gate_on_workload "oracle" "oracle" (fun _ => none)
    (fun _ => ExecOutcome.success "") (fun _ => ExecOutcome.success "") (fun _ => none)
    (by decide) (by decide)

end CyberRes
